import Mathlib

/-!
Shallow embedding of the asynchronous coordination layer of the carml
control-plane client (source files carml_events.py, carml_circ.py,
carml_relay.py), together with theorems settling the spec claims.

Twisted Deferred semantics used throughout: a Deferred is pending until
callback or errback is invoked once; invoking callback or errback on a
Deferred that has already fired raises AlreadyCalledError.
-/

/-- Errors of the host-language runtime that the embedded code can raise:
AlreadyCalledError from twisted Deferreds, UnboundLocalError from reading
a local variable before assignment, IndexError from random.choice on an
empty sequence. -/
inductive PyErr where
  | alreadyCalled
  | unboundLocal (name : String)
  | indexError
deriving DecidableEq, Repr

/-- State of a twisted Deferred: pending, fired successfully, or fired
with a failure message. -/
inductive DState where
  | pending
  | success
  | failure (msg : String)
deriving DecidableEq, Repr

/-- Deferred.callback: fires a pending Deferred successfully; raises
AlreadyCalledError on a Deferred that has already fired. -/
def dCallback : DState → Except PyErr DState
  | DState.pending => Except.ok DState.success
  | _ => Except.error PyErr.alreadyCalled

/-- Deferred.errback: fires a pending Deferred with a failure; raises
AlreadyCalledError on a Deferred that has already fired. -/
def dErrback (msg : String) : DState → Except PyErr DState
  | DState.pending => Except.ok (DState.failure msg)
  | _ => Except.error PyErr.alreadyCalled

/-- Python substring membership over character lists: needle occurs as a
contiguous substring of haystack. -/
def isSubstrList : List Char → List Char → Bool
  | needle, [] => needle.isEmpty
  | needle, h :: t => needle.isPrefixOf (h :: t) || isSubstrList needle t

/-- Python expression `needle in haystack` on strings: contiguous
substring test. -/
def pyIn (needle haystack : String) : Bool :=
  isSubstrList needle.data haystack.data

/-- Python str.upper, embedded characterwise (event names are ASCII, on
which Char.toUpper agrees with Python upper). -/
def pyUpper (s : String) : String :=
  String.mk (s.data.map Char.toUpper)

/-! Embedding of carml_events.run (carml_events.py lines 23-63).

The daemon-reported supported events are one space-separated string
(GETINFO events/names); validation of a requested name e is the Python
test `e.upper() not in all_events`, a substring test on that raw string.

The registration loop (lines 51-60) uppercases each requested name, and
for each name in order: if the name fails the substring test it prints
"Invalid event:" and returns at once; otherwise it immediately registers
a listener for the name with the daemon and moves to the next name. -/

/-- Registration loop of carml_events.run: returns the list of event
names registered (in order), and the first invalid name if the loop
stopped early at one. -/
def registerLoop (allEvents : String) : List String → List String × Option String
  | [] => ([], none)
  | e :: rest =>
    let e := pyUpper e
    if pyIn e allEvents then
      let r := registerLoop allEvents rest
      (e :: r.1, r.2)
    else
      ([], some e)

/-- Mutable state shared by the event listeners of carml_events.run:
the remaining-count cell counter[0] (None means unbounded), the
all_done Deferred, and the lines printed so far. -/
structure EvSt where
  counter : Option Int
  allDone : DState
  output : List String
deriving DecidableEq, Repr

/-- Initial listener state of carml_events.run: counter = [count], then
overwritten to 1 when the once flag is set; all_done pending. -/
def initEv (once : Bool) (count : Option Int) : EvSt :=
  { counter := if once then some 1 else count
    allDone := DState.pending
    output := [] }

/-- One delivered daemon event: its event class, its payload line, and
the wall-clock timestamp (time.asctime) at delivery. -/
structure Delivery where
  cls : String
  msg : String
  ts : String
deriving DecidableEq, Repr

/-- Faithful embedding of _got_event (carml_events.py lines 37-49).
With a bounded counter the code decrements counter[0], prints the
payload while the counter is still non-negative, and otherwise reaches
the line `elif all_done:`. Because the enclosing function assigns
`all_done = None` (line 44) without a nonlocal declaration, Python
treats all_done as a local variable of _got_event, so that read raises
UnboundLocalError before any callback happens: the Deferred is left
untouched. With counter None (unbounded) the payload is printed,
labeled with the event class when the listener was built with one,
otherwise with the timestamp. Returns the state after the call and the
exception the call raised, if any. -/
def got_event (evt : Option String) (ts : String) (st : EvSt) (msg : String) :
    EvSt × Option PyErr :=
  match st.counter with
  | some c =>
    let st := { st with counter := some (c - 1) }
    if c - 1 ≥ 0 then
      ({ st with output := st.output ++ [msg] }, none)
    else
      (st, some (PyErr.unboundLocal "all_done"))
  | none =>
    match evt with
    | some e => ({ st with output := st.output ++ [e ++ ": " ++ msg] }, none)
    | none => ({ st with output := st.output ++ [ts ++ " " ++ msg] }, none)

/-- Dispatch of one delivered event to its registered listener: the
listener was constructed as partial(_got_event, e) when the show-event
flag was set and partial(_got_event, None) otherwise
(carml_events.py lines 56-59). -/
def dispatch (showEvent : Bool) (st : EvSt) (d : Delivery) : EvSt × Option PyErr :=
  got_event (if showEvent then some d.cls else none) d.ts st d.msg

/-- Delivery of a stream of events in order. An exception raised by one
listener call is recorded and does not stop delivery of later events
(the protocol keeps dispatching). Returns the final state and the
exceptions raised, in order. -/
def deliverAll (showEvent : Bool) : EvSt → List Delivery → EvSt × List PyErr
  | st, [] => (st, [])
  | st, d :: rest =>
    let r1 := dispatch showEvent st d
    let r2 := deliverAll showEvent r1.1 rest
    (r2.1, match r1.2 with
           | some e => e :: r2.2
           | none => r2.2)

/-! Embedding of carml_circ.py.

The TorState snapshot (txtorcon TorState) is modelled with association
lists for its routers and entry_guards dictionaries, the set of live
circuit ids, and the id the daemon will assign to the next circuit it
builds. -/

/-- Resolved router identity from the directory snapshot. -/
structure RouterRef where
  rname : String
  idHex : String
deriving DecidableEq, Repr

/-- Result of find_router: either a router object from the snapshot or,
for an unresolved 40-character fingerprint, the raw string passed
through verbatim (carml_circ.py lines 122-125). -/
inductive RouterChoice where
  | known (r : RouterRef)
  | verbatim (s : String)
deriving DecidableEq, Repr

/-- Snapshot of daemon state as seen through txtorcon TorState. -/
structure TorState where
  routers : List (String × RouterRef)
  entry_guards : List (String × RouterRef)
  circuits : List Nat
  nextCircId : Nat
deriving DecidableEq, Repr

/-- Dictionary lookup state.routers.get(k). -/
def getRouter (st : TorState) (k : String) : Option RouterRef :=
  match st.routers.find? (fun p => p.1 == k) with
  | some p => some p.2
  | none => none

/-- Python random.choice: picks an element of the sequence (modelled by
an arbitrary index, reduced modulo the length, so that every possible
pick is covered); raises IndexError on an empty sequence. -/
def pyChoice {α : Type} (l : List α) (pick : Nat) : Except PyErr α :=
  match l with
  | [] => Except.error PyErr.indexError
  | a :: rest =>
    Except.ok ((a :: rest).get ⟨pick % (a :: rest).length, Nat.mod_lt _ (Nat.succ_pos _)⟩)

/-- Error message raised by find_router for an unresolvable token
(carml_circ.py line 127). -/
def rnfMsg (name : String) : String :=
  "Couldn\x27t find router \x22" ++ name ++ "\x22."

/-- Faithful embedding of find_router (carml_circ.py lines 114-128).
Token * picks at random from the entry-guard values at position 0 and
from the full router values otherwise; any other token is looked up by
name and then by name with a $ sigil; an unresolved token of length 40
is passed through verbatim, and any other unresolved token raises the
router-not-found error. -/
def find_router (st : TorState) (pick : Nat) (position : Nat) (name : String) :
    Except String RouterChoice :=
  if name = "*" then
    if position = 0 then
      match pyChoice (st.entry_guards.map Prod.snd) pick with
      | Except.ok r => Except.ok (RouterChoice.known r)
      | Except.error _ => Except.error "IndexError"
    else
      match pyChoice (st.routers.map Prod.snd) pick with
      | Except.ok r => Except.ok (RouterChoice.known r)
      | Except.error _ => Except.error "IndexError"
  else
    match getRouter st name with
    | some r => Except.ok (RouterChoice.known r)
    | none =>
      match getRouter st ("$" ++ name) with
      | some r => Except.ok (RouterChoice.known r)
      | none =>
        if name.length = 40 then Except.ok (RouterChoice.verbatim name)
        else Except.error (rnfMsg name)

/-- Eager left-to-right map of find_router over the enumerated token
list (carml_circ.py line 129, Python 2 map): stops at the first token
that raises. The picks function supplies the random choice drawn at
each position. -/
def resolvePath (st : TorState) (picks : Nat → Nat) :
    Nat → List String → Except String (List RouterChoice)
  | _, [] => Except.ok []
  | pos, n :: rest =>
    match find_router st (picks pos) pos n with
    | Except.error e => Except.error e
    | Except.ok r =>
      match resolvePath st picks (pos + 1) rest with
      | Except.error e => Except.error e
      | Except.ok rs => Except.ok (r :: rs)

/-- Observable interactions of build_circuit with the daemon and the
event layer, in program order. -/
inductive BuildAction where
  | createState
  | submitBuild (path : Option (List RouterChoice))
  | registerListener (cid : Nat)
  | awaitAllDone
deriving DecidableEq, Repr

/-- Faithful embedding of build_circuit (carml_circ.py lines 106-145)
as the trace of its daemon interactions plus the error it raises, if
any. The code first obtains the state, then resolves the token list
(unless it is the single token auto, which submits a daemon-selected
path); a resolution error propagates before any build request is made.
On success it submits the build request, which returns the circuit
object carrying the daemon-assigned id, then registers the
_BuiltCircuitListener for that id, then awaits the all_done Deferred.
The TorProtocolError branch of the try block is not exercised here: the
daemon is taken to accept the well-formed request. -/
def build_circuit (st : TorState) (picks : Nat → Nat) (tokens : List String) :
    List BuildAction × Option String :=
  if tokens.length = 1 ∧ pyUpper (tokens.headD "") = "AUTO" then
    ([BuildAction.createState, BuildAction.submitBuild none,
      BuildAction.registerListener st.nextCircId, BuildAction.awaitAllDone], none)
  else
    match resolvePath st picks 0 tokens with
    | Except.error e => ([BuildAction.createState], some e)
    | Except.ok path =>
      ([BuildAction.createState, BuildAction.submitBuild (some path),
        BuildAction.registerListener st.nextCircId, BuildAction.awaitAllDone], none)

/-- Index of the first action satisfying p in a build trace. -/
def firstIdx (p : BuildAction → Bool) : List BuildAction → Option Nat
  | [] => none
  | a :: rest => if p a then some 0 else (firstIdx p rest).map (· + 1)

/-- Recognizer for the build-request submission action. -/
def isSubmit : BuildAction → Bool
  | BuildAction.submitBuild _ => true
  | _ => false

/-- Recognizer for the listener-registration action. -/
def isRegister : BuildAction → Bool
  | BuildAction.registerListener _ => true
  | _ => false

/-- Formalization of the registration discipline claimed by the spec:
whenever a build request is submitted, a listener registration occurs
at or before the submission point of the trace, so the request is never
pending without a listener. -/
def listenerRegisteredFirst (tr : List BuildAction) : Bool :=
  match firstIdx isSubmit tr with
  | none => true
  | some j =>
    match firstIdx isRegister tr with
    | some i => i ≤ j
    | none => false

/-- Combined state of one _BuiltCircuitListener (carml_circ.py lines
73-104) and the all_done Deferred it drives: the tracked circuit id,
the first flag used for arrow formatting, the Deferred state and the
text written to stdout. -/
structure ListenerSt where
  circid : Nat
  first : Bool
  allDone : DState
  output : List String
deriving DecidableEq, Repr

/-- Circuit-lifecycle notifications delivered to a circuit listener,
keyed by circuit id. -/
inductive CircNotify where
  | extend (cid : Nat) (routerName : String)
  | built (cid : Nat)
  | closed (cid : Nat)
  | failed (cid : Nat) (reason remoteReason : Option String)
deriving DecidableEq, Repr

/-- Circuit id a notification carries. -/
def notifyId : CircNotify → Nat
  | CircNotify.extend cid _ => cid
  | CircNotify.built cid => cid
  | CircNotify.closed cid => cid
  | CircNotify.failed cid _ _ => cid

/-- Failure message built by circuit_failed (carml_circ.py lines
98-103) from the optional reason and remote_reason keywords. -/
def failedMsg (r rr : Option String) : String :=
  "failed (" ++ r.getD "" ++ ", " ++ rr.getD "" ++ ")."

/-- Faithful embedding of one notification delivered to
_BuiltCircuitListener. Every handler first compares the circuit id with
the tracked one and does nothing on a mismatch. circuit_extend only
writes progress text. circuit_built and circuit_closed print and then
invoke all_done.callback; circuit_failed invokes all_done.errback with
the failure message. The Deferred raises AlreadyCalledError when fired
a second time; the pair returned is the state after the call and the
exception it raised, if any. -/
def notifyStep (s : ListenerSt) : CircNotify → ListenerSt × Option PyErr
  | CircNotify.extend cid rname =>
    if cid = s.circid then
      if s.first then ({ s with first := false, output := s.output ++ [rname] }, none)
      else ({ s with output := s.output ++ [" -> ", rname] }, none)
    else (s, none)
  | CircNotify.built cid =>
    if cid = s.circid then
      let s1 := { s with output := s.output ++ [": built."] }
      match dCallback s.allDone with
      | Except.ok d => ({ s1 with allDone := d }, none)
      | Except.error e => (s1, some e)
    else (s, none)
  | CircNotify.closed cid =>
    if cid = s.circid then
      let s1 := { s with output := s.output ++ [": closed."] }
      match dCallback s.allDone with
      | Except.ok d => ({ s1 with allDone := d }, none)
      | Except.error e => (s1, some e)
    else (s, none)
  | CircNotify.failed cid r rr =>
    if cid = s.circid then
      match dErrback (failedMsg r rr) s.allDone with
      | Except.ok d => ({ s with allDone := d }, none)
      | Except.error e => (s, some e)
    else (s, none)

/-- Delivery of a sequence of circuit notifications to a listener; an
exception raised by one handler is recorded and later notifications are
still delivered. -/
def runNotify : ListenerSt → List CircNotify → ListenerSt × List PyErr
  | s, [] => (s, [])
  | s, n :: rest =>
    let r1 := notifyStep s n
    let r2 := runNotify r1.1 rest
    (r2.1, match r1.2 with
           | some e => e :: r2.2
           | none => r2.2)

/-- Observable interactions of delete_circuit with the daemon. -/
inductive DelAction where
  | createState
  | closeCircuit (cid : Nat) (ifUnused : Bool)
  | awaitClosed (cid : Nat)
deriving DecidableEq, Repr

/-- Error message raised by delete_circuit for an id absent from the
snapshot (carml_circ.py line 64). -/
def noSuchMsg (cid : Nat) : String :=
  "No such circuit \x27" ++ toString cid ++ "\x27"

/-- Faithful embedding of delete_circuit (carml_circ.py lines 50-70):
obtains the state, looks the id up in state.circuits and raises the
no-such-circuit error on a miss before any daemon round-trip; on a hit
it issues close_circuit (with the IfUnused flag when requested) and
waits for the circuit to reach CLOSED, which the daemon is assumed to
eventually deliver for a valid close request. Returns the trace of
daemon interactions and the outcome of this deletion, the pair standing
for the operation together with its own Completion Signal. -/
def delete_circuit (st : TorState) (ifUnused : Bool) (cid : Nat) :
    List DelAction × Except String Unit :=
  if st.circuits.contains cid then
    ([DelAction.createState, DelAction.closeCircuit cid ifUnused,
      DelAction.awaitClosed cid], Except.ok ())
  else
    ([DelAction.createState], Except.error (noSuchMsg cid))

/-- Delete branch of carml_circ.run (lines 153-156): one delete_circuit
invocation per requested id, each with its own Deferred; all of them
run to settlement, none is cancelled by a sibling. -/
def run_deletes (st : TorState) (ifUnused : Bool) (ids : List Nat) :
    List (List DelAction × Except String Unit) :=
  ids.map (delete_circuit st ifUnused)

/-- First failure among the settled outcomes, in list order. -/
def firstFailure : List (Except String Unit) → Option String
  | [] => none
  | Except.ok _ :: rest => firstFailure rest
  | Except.error e :: _ => some e

/-- Aggregate of the delete branch of carml_circ.run (lines 157-160):
DeferredList waits until every deletion has settled, then the loop over
the (ok, value) pairs re-raises the first failure, and the aggregate
succeeds when there is none. -/
def circ_run_delete (st : TorState) (ifUnused : Bool) (ids : List Nat) :
    Except String Unit :=
  match firstFailure ((run_deletes st ifUnused ids).map Prod.snd) with
  | none => Except.ok ()
  | some e => Except.error e

/-! Embedding of the Entity-Await Loop of carml_relay.py.

The function _when_updated registers a one-shot NEWCONSENSUS listener
that removes itself when it fires, so each loop iteration of
_await_router consumes exactly one snapshot refresh. The sequence of
refreshed snapshots is modelled as a list of TorState values, each the
snapshot contents after one NEWCONSENSUS notification. -/

/-- Faithful embedding of _await_router (carml_relay.py lines 85-93):
waits for one refresh, looks the router id up in the refreshed
snapshot, returns it on a hit and loops otherwise. Returns the router
found together with the number of refreshes consumed, or none when the
given refreshes are exhausted without a hit (the loop is still
suspended waiting for the next NEWCONSENSUS). -/
def await_router (rid : String) : List TorState → Option (Nat × RouterRef)
  | [] => none
  | st :: rest =>
    match getRouter st rid with
    | some r => some (1, r)
    | none =>
      match await_router rid rest with
      | some nr => some (nr.1 + 1, nr.2)
      | none => none

/-- Faithful embedding of router_await (carml_relay.py lines 96-109):
normalizes a 40-character argument without a $ sigil by prefixing $,
rejects a 41-character argument without the sigil, then returns the
router at once when it is already present in the current snapshot
(zero refreshes consumed) and otherwise enters _await_router. -/
def router_await (st0 : TorState) (refreshes : List TorState) (arg : String) :
    Option (Nat × RouterRef) :=
  let arg := if arg.length = 40 ∧ ¬ arg.startsWith "$" then "$" ++ arg else arg
  if ¬ arg.startsWith "$" ∧ arg.length = 41 then none
  else
    match getRouter st0 arg with
    | some r => some (0, r)
    | none => await_router arg refreshes

/-- Python str.split() on spaces, dropping empty pieces: used by the
list-events branch of carml_events.run (line 28) to enumerate the
individual supported event-class names. -/
def splitWS : List Char → List Char → List String
  | [], acc => if acc.isEmpty then [] else [String.mk acc.reverse]
  | c :: rest, acc =>
    if c = ' ' then
      (if acc.isEmpty then [] else [String.mk acc.reverse]) ++ splitWS rest []
    else splitWS rest (c :: acc)

/-- Word list of a space-separated string. -/
def pySplit (s : String) : List String := splitWS s.data []

/-- C2: the claim states that subscribe validates every requested name
before registering anything, all-or-nothing. The code instead validates
and registers one name at a time: with the supported-events string
CIRC STREAM and the request [CIRC, XXXX], the listener for CIRC is
registered with the daemon before XXXX is found invalid, so a rejection
coexists with a nonempty registered set — partial registration. -/
theorem c2_partial_registration_counterexample :
    registerLoop "CIRC STREAM" ["CIRC", "XXXX"] = (["CIRC"], some "XXXX") ∧
    ((registerLoop "CIRC STREAM" ["CIRC", "XXXX"]).2.isSome = true ∧
     (registerLoop "CIRC STREAM" ["CIRC", "XXXX"]).1 ≠ []) := by decide

/-- C2 (amended): the registration loop upper-cases the requested names
and walks them in order, registering each name that passes validation
immediately; it stops at the first invalid name, which it reports. So
exactly the longest valid prefix of the (upper-cased) request ends up
registered, and the reported failure, when any, is the first invalid
name — not all-or-nothing. -/
theorem c2_prefix_registration (allEvents : String) (events : List String) :
    registerLoop allEvents events =
      ((events.map pyUpper).takeWhile (fun e => pyIn e allEvents),
       ((events.map pyUpper).dropWhile (fun e => pyIn e allEvents)).head?) := by
  induction events with
  | nil => rfl
  | cons e rest ih =>
    by_cases h : pyIn (pyUpper e) allEvents = true
    · simp [registerLoop, h, ih, List.takeWhile_cons, List.dropWhile_cons]
    · simp [registerLoop, h, List.takeWhile_cons, List.dropWhile_cons]

/-- C4: with the counted policy N = 3 the listener emits exactly the
first 3 payloads, but the claimed resolution of the Completion Signal
never happens: the handler assigns all_done within its own body without
a nonlocal declaration, so all_done is a local variable and the read at
the line `elif all_done:` raises UnboundLocalError on the 4th and every
later delivery, leaving the Deferred pending forever. -/
theorem c4_counted_policy_bug :
    deliverAll false (initEv false (some 3))
      [⟨"CIRC", "m1", "t1"⟩, ⟨"CIRC", "m2", "t2"⟩, ⟨"CIRC", "m3", "t3"⟩,
       ⟨"CIRC", "m4", "t4"⟩, ⟨"CIRC", "m5", "t5"⟩] =
    ({ counter := some (-2), allDone := DState.pending, output := ["m1", "m2", "m3"] },
     [PyErr.unboundLocal "all_done", PyErr.unboundLocal "all_done"]) := by decide

/-- C7: the claim states that under the unbounded policy an emission is
labeled with its event class exactly when more than one event class is
subscribed. The code labels by the show-event flag instead: here two
classes (CIRC and STREAM) are subscribed, the flag is off, and the
emitted line carries the timestamp label, not the event-class label. -/
theorem c7_label_counterexample :
    registerLoop "CIRC STREAM" ["CIRC", "STREAM"] = (["CIRC", "STREAM"], none) ∧
    (deliverAll false (initEv false none) [⟨"CIRC", "m", "T"⟩]).1.output = ["T m"] ∧
    ["T m"] ≠ ["CIRC: m"] := by decide

/-- C7 (amended): under the unbounded policy (counter None) every
delivered event is emitted, each emission is labeled with its event
class when the show-event flag is set and with the delivery timestamp
otherwise (independently of how many classes are subscribed), no
exception is raised, and the Completion Signal never resolves on its
own — the Deferred stays pending after any number of deliveries. -/
theorem c7_unbounded_emission (showEvent : Bool) (out0 : List String) (ds : List Delivery) :
    deliverAll showEvent ⟨none, DState.pending, out0⟩ ds =
      (⟨none, DState.pending,
        out0 ++ ds.map (fun d =>
          if showEvent then d.cls ++ ": " ++ d.msg else d.ts ++ " " ++ d.msg)⟩,
       []) := by
  induction ds generalizing out0 with
  | nil => simp [deliverAll]
  | cons d rest ih =>
    cases showEvent <;> simp [deliverAll, dispatch, got_event, ih]

/-- C10: event-name validation is exactly the Python substring test of
the upper-cased requested name against the raw space-separated
supported-names string: a name whose upper-cased form occurs as a
contiguous substring is accepted and registered, and a name whose
upper-cased form does not occur is rejected as the invalid name. -/
theorem c10_validation_is_substring (allEvents e : String) :
    (pyIn (pyUpper e) allEvents = true →
      registerLoop allEvents [e] = ([pyUpper e], none)) ∧
    (pyIn (pyUpper e) allEvents = false →
      registerLoop allEvents [e] = ([], some (pyUpper e))) := by
  constructor <;> intro h <;> simp [registerLoop, h]

/-- C10 witness: the request irc upper-cases to IRC, which is a
contiguous substring of the supported-names string CIRC STREAM, so it
passes validation and is registered, although IRC is not one of the
supported event-class names (the words of that string). -/
theorem c10_validation_is_substring_witness :
    registerLoop "CIRC STREAM" ["irc"] = (["IRC"], none) ∧
    (pySplit "CIRC STREAM").contains "IRC" = false :=
  ⟨(c10_validation_is_substring "CIRC STREAM" "irc").1 (by decide), by decide⟩

/-- Helper: firing an already-fired Deferred with callback raises
AlreadyCalledError. -/
theorem dCallback_fired (d : DState) (h : d ≠ DState.pending) :
    dCallback d = Except.error PyErr.alreadyCalled := by
  cases d with
  | pending => exact absurd rfl h
  | success => rfl
  | failure m => rfl

/-- Helper: firing an already-fired Deferred with errback raises
AlreadyCalledError. -/
theorem dErrback_fired (msg : String) (d : DState) (h : d ≠ DState.pending) :
    dErrback msg d = Except.error PyErr.alreadyCalled := by
  cases d with
  | pending => exact absurd rfl h
  | success => rfl
  | failure m => rfl

/-- C1: the claim states that the Completion Signal of a build resolves
only in response to built or failed notifications and that a
notification delivered after resolution raises no error. The code
violates both: starting from a fresh listener tracking circuit id 1, a
single closed notification for id 1 resolves the signal successfully,
and after a built notification for id 1 has resolved it, the following
closed notification for the same id raises AlreadyCalledError from the
Deferred instead of being ignored. -/
theorem c1_resolution_counterexample :
    (runNotify ⟨1, true, DState.pending, []⟩ [CircNotify.closed 1]).1.allDone =
      DState.success ∧
    (runNotify ⟨1, true, DState.pending, []⟩
      [CircNotify.built 1, CircNotify.closed 1]).2 = [PyErr.alreadyCalled] := by decide

/-- C1 (amended): for a listener tracking circuit id i, every
notification whose circuit id differs from i leaves the state unchanged
and raises no error; while the Completion Signal is pending, a matching
built or closed notification resolves it successfully and a matching
failed notification resolves it with the failure message built from the
reason codes; once the signal has resolved, a matching built, closed or
failed notification raises AlreadyCalledError rather than being
ignored. -/
theorem c1_listener_behavior :
    (∀ (s : ListenerSt) (n : CircNotify), notifyId n ≠ s.circid →
      notifyStep s n = (s, none)) ∧
    (∀ (s : ListenerSt) (cid : Nat), s.allDone = DState.pending → cid = s.circid →
      ((notifyStep s (CircNotify.built cid)).1.allDone = DState.success ∧
        (notifyStep s (CircNotify.built cid)).2 = none) ∧
      ((notifyStep s (CircNotify.closed cid)).1.allDone = DState.success ∧
        (notifyStep s (CircNotify.closed cid)).2 = none) ∧
      (∀ r rr,
        (notifyStep s (CircNotify.failed cid r rr)).1.allDone =
          DState.failure (failedMsg r rr) ∧
        (notifyStep s (CircNotify.failed cid r rr)).2 = none)) ∧
    (∀ (s : ListenerSt) (cid : Nat), s.allDone ≠ DState.pending → cid = s.circid →
      (notifyStep s (CircNotify.built cid)).2 = some PyErr.alreadyCalled ∧
      (notifyStep s (CircNotify.closed cid)).2 = some PyErr.alreadyCalled ∧
      (∀ r rr,
        (notifyStep s (CircNotify.failed cid r rr)).2 = some PyErr.alreadyCalled)) := by
  refine ⟨?_, ?_, ?_⟩
  · intro s n h
    cases n with
    | extend cid rname => simp only [notifyId] at h; simp [notifyStep, h]
    | built cid => simp only [notifyId] at h; simp [notifyStep, h]
    | closed cid => simp only [notifyId] at h; simp [notifyStep, h]
    | failed cid r rr => simp only [notifyId] at h; simp [notifyStep, h]
  · intro s cid hpend hcid
    refine ⟨?_, ?_, ?_⟩ <;> simp [notifyStep, hcid, hpend, dCallback, dErrback]
  · intro s cid hfired hcid
    refine ⟨?_, ?_, ?_⟩ <;>
      simp [notifyStep, hcid, dCallback_fired _ hfired, dErrback_fired _ _ hfired]

/-- C1 witness: the amended behavior evaluated on concrete listener
states — a notification for circuit id 2 delivered to a listener
tracking id 1 is a no-op; a built notification for id 1 resolves the
pending signal; a closed notification for id 1 after resolution raises
AlreadyCalledError. -/
theorem c1_listener_behavior_witness :
    notifyStep ⟨1, true, DState.pending, []⟩ (CircNotify.built 2) =
      (⟨1, true, DState.pending, []⟩, none) ∧
    (notifyStep ⟨1, true, DState.pending, []⟩ (CircNotify.built 1)).1.allDone =
      DState.success ∧
    (notifyStep ⟨1, false, DState.success, []⟩ (CircNotify.closed 1)).2 =
      some PyErr.alreadyCalled :=
  ⟨c1_listener_behavior.1 ⟨1, true, DState.pending, []⟩ (CircNotify.built 2) (by decide),
   (c1_listener_behavior.2.1 ⟨1, true, DState.pending, []⟩ 1 rfl rfl).1.1,
   (c1_listener_behavior.2.2 ⟨1, false, DState.success, []⟩ 1 (by decide) rfl).2.1⟩

/-- C3: the claim states the listener is registered before, or
atomically with, the submission of the build request. In the trace of
the code the submission comes strictly first: for the auto path on a
snapshot whose next circuit id is 9 the trace is create-state, submit,
register, await, and the registered-first discipline the claim asserts
is false for it. -/
theorem c3_registration_counterexample :
    (build_circuit ⟨[], [], [], 9⟩ (fun _ => 0) ["auto"]).1 =
      [BuildAction.createState, BuildAction.submitBuild none,
       BuildAction.registerListener 9, BuildAction.awaitAllDone] ∧
    listenerRegisteredFirst (build_circuit ⟨[], [], [], 9⟩ (fun _ => 0) ["auto"]).1 =
      false := by decide

/-- C3 (amended): in every run of build_circuit the listener
registration happens strictly after the build request is submitted
(the listener needs the circuit id that only the submission returns),
so there is a window in which the build request is pending with the
daemon and no listener for its notifications exists; moreover a
listener is only ever registered in traces that contain a submission
before it. -/
theorem c3_listener_after_submit (st : TorState) (picks : Nat → Nat)
    (tokens : List String) :
    (∀ i j, firstIdx isSubmit (build_circuit st picks tokens).1 = some i →
      firstIdx isRegister (build_circuit st picks tokens).1 = some j → i < j) ∧
    (∀ j, firstIdx isRegister (build_circuit st picks tokens).1 = some j →
      ∃ i, firstIdx isSubmit (build_circuit st picks tokens).1 = some i ∧ i < j) := by
  unfold build_circuit
  split
  · constructor
    · intro i j hi hj
      simp [firstIdx, isSubmit, isRegister] at hi hj
      omega
    · intro j hj
      simp [firstIdx, isSubmit, isRegister] at hj
      exact ⟨1, by simp [firstIdx, isSubmit], by omega⟩
  · cases hres : resolvePath st picks 0 tokens with
    | error e =>
      constructor
      · intro i j hi hj
        simp [hres, firstIdx, isSubmit] at hi
      · intro j hj
        simp [hres, firstIdx, isRegister] at hj
    | ok path =>
      constructor
      · intro i j hi hj
        simp [hres, firstIdx, isSubmit, isRegister] at hi hj
        omega
      · intro j hj
        simp [hres, firstIdx, isSubmit, isRegister] at hj
        exact ⟨1, by simp [hres, firstIdx, isSubmit], by omega⟩

/-- C3 witness: on the concrete auto build the submission has trace
index 1 and the registration trace index 2; the amended ordering
applied there yields 1 < 2. -/
theorem c3_listener_after_submit_witness :
    firstIdx isSubmit (build_circuit ⟨[], [], [], 9⟩ (fun _ => 0) ["auto"]).1 = some 1 ∧
    firstIdx isRegister (build_circuit ⟨[], [], [], 9⟩ (fun _ => 0) ["auto"]).1 = some 2 ∧
    1 < 2 :=
  ⟨by decide, by decide,
   (c3_listener_after_submit ⟨[], [], [], 9⟩ (fun _ => 0) ["auto"]).1 1 2
     (by decide) (by decide)⟩

/-- C5: for a build request over the path A, B in a snapshot where A
resolves to a router and B resolves neither by name nor with the $
sigil (and is not a 40-character fingerprint), the resolution of B
raises the router-not-found error naming B, the error message contains
the token B, and the trace stops at create-state: no build request is
ever submitted to the daemon. -/
theorem c5_router_not_found_aborts (st : TorState) (picks : Nat → Nat) (rA : RouterRef)
    (hA : getRouter st "A" = some rA)
    (hB : getRouter st "B" = none) (hB2 : getRouter st "$B" = none) :
    build_circuit st picks ["A", "B"] = ([BuildAction.createState], some (rnfMsg "B")) ∧
    pyIn "B" (rnfMsg "B") = true ∧
    firstIdx isSubmit (build_circuit st picks ["A", "B"]).1 = none := by
  have hfA : find_router st (picks 0) 0 "A" = Except.ok (RouterChoice.known rA) := by
    unfold find_router
    rw [if_neg (by decide : ¬ ("A" : String) = "*")]
    rw [hA]
  have hfB : find_router st (picks 1) 1 "B" = Except.error (rnfMsg "B") := by
    unfold find_router
    rw [if_neg (by decide : ¬ ("B" : String) = "*")]
    rw [hB]
    have : getRouter st ("$" ++ "B") = none := hB2
    rw [this]
    rw [if_neg (by decide : ¬ ("B" : String).length = 40)]
  have hpath : resolvePath st picks 0 ["A", "B"] = Except.error (rnfMsg "B") := by
    simp [resolvePath, hfA, hfB]
  have hbuild : build_circuit st picks ["A", "B"] =
      ([BuildAction.createState], some (rnfMsg "B")) := by
    unfold build_circuit
    rw [if_neg (by decide :
      ¬ ((["A", "B"] : List String).length = 1 ∧ pyUpper (["A", "B"].headD "") = "AUTO"))]
    rw [hpath]
  refine ⟨hbuild, by decide, ?_⟩
  rw [hbuild]
  rfl

/-- C5 witness: a concrete snapshot that knows router A and nothing
else; building the path A, B aborts with the router-not-found error for
B, whose message mentions B, and submits nothing. -/
theorem c5_router_not_found_aborts_witness :
    build_circuit ⟨[("A", ⟨"A", "$aaaa"⟩)], [], [], 3⟩ (fun _ => 0) ["A", "B"] =
      ([BuildAction.createState], some (rnfMsg "B")) ∧
    pyIn "B" (rnfMsg "B") = true ∧
    firstIdx isSubmit
      (build_circuit ⟨[("A", ⟨"A", "$aaaa"⟩)], [], [], 3⟩ (fun _ => 0) ["A", "B"]).1 =
      none :=
  c5_router_not_found_aborts ⟨[("A", ⟨"A", "$aaaa"⟩)], [], [], 3⟩ (fun _ => 0)
    ⟨"A", "$aaaa"⟩ (by decide) (by decide) (by decide)

/-- Helper: a successful random.choice returns a member of the list it
chose from. -/
theorem pyChoice_mem {α : Type} (l : List α) (pick : Nat) (r : α)
    (h : pyChoice l pick = Except.ok r) : r ∈ l := by
  cases l with
  | nil => simp [pyChoice] at h
  | cons a rest =>
    simp only [pyChoice, Except.ok.injEq] at h
    rw [← h]
    exact List.get_mem _ _ _

/-- C8: whenever resolving the wildcard token yields a router, that
router is a member of the position-dependent candidate set: at path
position 0 a member of the entry-guard values of the snapshot, at any
later position a member of the full known-router values — membership
only, since the index drawn by random.choice is arbitrary. -/
theorem c8_wildcard_membership (st : TorState) (pick pos : Nat) (r : RouterRef)
    (h : find_router st pick pos "*" = Except.ok (RouterChoice.known r)) :
    (pos = 0 → r ∈ st.entry_guards.map Prod.snd) ∧
    (pos ≠ 0 → r ∈ st.routers.map Prod.snd) := by
  unfold find_router at h
  rw [if_pos rfl] at h
  constructor
  · intro hp
    rw [if_pos hp] at h
    cases hc : pyChoice (st.entry_guards.map Prod.snd) pick with
    | ok r2 =>
      rw [hc] at h
      cases h
      exact pyChoice_mem _ _ _ hc
    | error e => rw [hc] at h; cases h
  · intro hp
    rw [if_neg hp] at h
    cases hc : pyChoice (st.routers.map Prod.snd) pick with
    | ok r2 =>
      rw [hc] at h
      cases h
      exact pyChoice_mem _ _ _ hc
    | error e => rw [hc] at h; cases h

/-- C8 witness: on a snapshot with one entry guard G and one router R,
the wildcard resolves to G at position 0 and to R at position 1, each a
member of the respective candidate set. -/
theorem c8_wildcard_membership_witness :
    (⟨"G", "gg"⟩ : RouterRef) ∈
      ((⟨[("R", ⟨"R", "rr"⟩)], [("G", ⟨"G", "gg"⟩)], [], 1⟩ : TorState).entry_guards.map
        Prod.snd) ∧
    (⟨"R", "rr"⟩ : RouterRef) ∈
      ((⟨[("R", ⟨"R", "rr"⟩)], [("G", ⟨"G", "gg"⟩)], [], 1⟩ : TorState).routers.map
        Prod.snd) :=
  ⟨(c8_wildcard_membership ⟨[("R", ⟨"R", "rr"⟩)], [("G", ⟨"G", "gg"⟩)], [], 1⟩ 0 0
      ⟨"G", "gg"⟩ (by rfl)).1 rfl,
   (c8_wildcard_membership ⟨[("R", ⟨"R", "rr"⟩)], [("G", ⟨"G", "gg"⟩)], [], 1⟩ 0 1
      ⟨"R", "rr"⟩ (by rfl)).2 (by decide)⟩

/-- Helper: the aggregate of the delete branch reports no failure
exactly when every settled outcome succeeded. -/
theorem firstFailure_eq_none (rs : List (Except String Unit)) :
    firstFailure rs = none ↔ ∀ r ∈ rs, r = Except.ok () := by
  induction rs with
  | nil => simp [firstFailure]
  | cons r rest ih =>
    cases r with
    | ok u => cases u; simp [firstFailure, ih]
    | error e => simp [firstFailure]

/-- C6: each requested circuit id gets its own deletion with its own
Completion Signal; the aggregate, computed only after every deletion
has settled, succeeds exactly when all of them succeeded; and in the
batch [a, b] where a is a live circuit and b is unknown, the aggregate
fails with the no-such-circuit error for b (the first encountered
failure) while the deletion of a still ran to completion — its trace
holds the close request and the wait for CLOSED and its own signal
resolved successfully — and the failed deletion of b performed no
daemon round-trip. -/
theorem c6_batch_delete (st : TorState) (u : Bool) :
    (∀ ids, circ_run_delete st u ids = Except.ok () ↔
      ∀ cid ∈ ids, (delete_circuit st u cid).2 = Except.ok ()) ∧
    (∀ a b, st.circuits.contains a = true → st.circuits.contains b = false →
      circ_run_delete st u [a, b] = Except.error (noSuchMsg b) ∧
      delete_circuit st u a =
        ([DelAction.createState, DelAction.closeCircuit a u, DelAction.awaitClosed a],
         Except.ok ()) ∧
      delete_circuit st u b = ([DelAction.createState], Except.error (noSuchMsg b))) := by
  constructor
  · intro ids
    constructor
    · intro h cid hcid
      cases hf : firstFailure ((run_deletes st u ids).map Prod.snd) with
      | none =>
        exact (firstFailure_eq_none _).mp hf _ (by
          simp only [run_deletes, List.map_map, List.mem_map, Function.comp]
          exact ⟨cid, hcid, rfl⟩)
      | some e =>
        unfold circ_run_delete at h
        rw [hf] at h
        simp at h
    · intro hall
      have hf : firstFailure ((run_deletes st u ids).map Prod.snd) = none := by
        rw [firstFailure_eq_none]
        intro r hr
        simp only [run_deletes, List.map_map, List.mem_map, Function.comp] at hr
        obtain ⟨cid, hcid, hr⟩ := hr
        rw [← hr]
        exact hall cid hcid
      unfold circ_run_delete
      rw [hf]
  · intro a b ha hb
    have ha2 : a ∈ st.circuits := by simpa using ha
    have hb2 : b ∉ st.circuits := by simpa using hb
    refine ⟨?_, by simp [delete_circuit, ha2], by simp [delete_circuit, hb2]⟩
    simp [circ_run_delete, run_deletes, delete_circuit, ha2, hb2, firstFailure]

/-- C6 witness: on a snapshot whose only live circuit is 5, deleting
the batch [5, 7] fails in aggregate with the no-such-circuit error for
7, while the deletion of 5 completed with the full close trace and its
own successful resolution, and the deletion of 7 never reached the
daemon. -/
theorem c6_batch_delete_witness :
    circ_run_delete ⟨[], [], [5], 1⟩ false [5, 7] = Except.error (noSuchMsg 7) ∧
    delete_circuit ⟨[], [], [5], 1⟩ false 5 =
      ([DelAction.createState, DelAction.closeCircuit 5 false, DelAction.awaitClosed 5],
       Except.ok ()) ∧
    delete_circuit ⟨[], [], [5], 1⟩ false 7 =
      ([DelAction.createState], Except.error (noSuchMsg 7)) :=
  (c6_batch_delete ⟨[], [], [5], 1⟩ false).2 5 7 (by decide) (by decide)

/-- C9: the await loop consumes one snapshot refresh per iteration and
re-checks the lookup after each. If router x is absent from the current
snapshot and from the first three refreshed snapshots and present in
the fourth, router_await resolves exactly once, with the router of the
fourth refresh after consuming exactly four refreshes, whatever
refreshes follow — and it has not resolved after only the first three
refreshes. If x is already present in the current snapshot it returns
at once, consuming no refresh. The length side conditions keep the
lookup key away from the fingerprint rewriting of the argument. -/
theorem c9_await_loop :
    (∀ (st0 r1 r2 r3 r4 : TorState) (rest : List TorState) (x : String)
      (rt : RouterRef),
      x.length ≠ 40 → x.length ≠ 41 →
      getRouter st0 x = none → getRouter r1 x = none → getRouter r2 x = none →
      getRouter r3 x = none → getRouter r4 x = some rt →
      router_await st0 (r1 :: r2 :: r3 :: r4 :: rest) x = some (4, rt) ∧
      router_await st0 [r1, r2, r3] x = none) ∧
    (∀ (st0 : TorState) (refreshes : List TorState) (x : String) (rt : RouterRef),
      x.length ≠ 40 → x.length ≠ 41 →
      getRouter st0 x = some rt →
      router_await st0 refreshes x = some (0, rt)) := by
  constructor
  · intro st0 r1 r2 r3 r4 rest x rt h40 h41 h0 h1 h2 h3 h4
    constructor <;>
      simp [router_await, await_router, h40, h41, h0, h1, h2, h3, h4]
  · intro st0 refreshes x rt h40 h41 h0
    simp [router_await, h40, h41, h0]

/-- C9 witness: the name X (length 1) is absent initially and for three
refreshes, present in the fourth refresh; the loop resolves to that
router after four refreshes, has not resolved after three, and a
snapshot already naming X resolves with zero refreshes. -/
theorem c9_await_loop_witness :
    router_await ⟨[], [], [], 0⟩
      [⟨[], [], [], 0⟩, ⟨[], [], [], 0⟩, ⟨[], [], [], 0⟩,
       ⟨[("X", ⟨"X", "xx"⟩)], [], [], 0⟩] "X" = some (4, ⟨"X", "xx"⟩) ∧
    router_await ⟨[], [], [], 0⟩
      [⟨[], [], [], 0⟩, ⟨[], [], [], 0⟩, ⟨[], [], [], 0⟩] "X" = none ∧
    router_await ⟨[("X", ⟨"X", "xx"⟩)], [], [], 0⟩ [] "X" = some (0, ⟨"X", "xx"⟩) :=
  ⟨(c9_await_loop.1 ⟨[], [], [], 0⟩ ⟨[], [], [], 0⟩ ⟨[], [], [], 0⟩ ⟨[], [], [], 0⟩
      ⟨[("X", ⟨"X", "xx"⟩)], [], [], 0⟩ [] "X" ⟨"X", "xx"⟩
      (by decide) (by decide) (by decide) (by decide) (by decide) (by decide)
      (by decide)).1,
   (c9_await_loop.1 ⟨[], [], [], 0⟩ ⟨[], [], [], 0⟩ ⟨[], [], [], 0⟩ ⟨[], [], [], 0⟩
      ⟨[("X", ⟨"X", "xx"⟩)], [], [], 0⟩ [] "X" ⟨"X", "xx"⟩
      (by decide) (by decide) (by decide) (by decide) (by decide) (by decide)
      (by decide)).2,
   c9_await_loop.2 ⟨[("X", ⟨"X", "xx"⟩)], [], [], 0⟩ [] "X" ⟨"X", "xx"⟩
      (by decide) (by decide) (by decide)⟩
